import Mathlib

/-!
Verification of `chess_com_box.py`: a shallow embedding of its data model
(JSON-like Python values, environment mappings, HTTP outcomes) and of its
functions `get_adjusted_line`, `get_rating_line`, `get_chess_com_stats`,
`validate_and_init`, the CLI-argument handling and the `main` orchestration,
followed by theorems settling the specification claims.
-/

set_option autoImplicit false

namespace ChessComBox

/-- JSON-like Python values: `None`, booleans, integers, strings, lists and
dicts (modelled as association lists of string keys). -/
inductive JVal where
  | null
  | bool (b : Bool)
  | num (n : Int)
  | str (s : String)
  | arr (xs : List JVal)
  | obj (kvs : List (String × JVal))

/-- Python exceptions that the embedded code can raise. -/
inductive PyExc where
  | attributeError
  | typeError
  | requestException

/-- Lookup of a key in a dict body (first binding wins, as in a Python dict
where bindings are kept unique). -/
def dictGet (kvs : List (String × JVal)) (k : String) : Option JVal :=
  match kvs with
  | [] => none
  | (k2, v) :: rest => if k2 = k then some v else dictGet rest k

/-- Python truthiness of a value: `None`, `False`, `0`, `""`, `[]` and
empty dicts are falsy, everything else is truthy. -/
def pyTruthy : JVal → Bool
  | .null => false
  | .bool b => b
  | .num n => n != 0
  | .str s => !s.isEmpty
  | .arr xs => !xs.isEmpty
  | .obj kvs => !kvs.isEmpty

mutual

/-- Python `repr` of a value, as used when a non-string value is rendered
inside an f-string through `str`. -/
def pyRepr : JVal → String
  | .null => "None"
  | .bool true => "True"
  | .bool false => "False"
  | .num n => toString n
  | .str s => "\x27" ++ s ++ "\x27"
  | .arr xs => "[" ++ pyReprSeq xs ++ "]"
  | .obj kvs => "\x7b" ++ pyReprPairs kvs ++ "\x7d"

/-- Comma-separated `repr` of list elements. -/
def pyReprSeq : List JVal → String
  | [] => ""
  | [x] => pyRepr x
  | x :: y :: xs => pyRepr x ++ ", " ++ pyReprSeq (y :: xs)

/-- Comma-separated `repr` of dict entries. -/
def pyReprPairs : List (String × JVal) → String
  | [] => ""
  | [(k, v)] => "\x27" ++ k ++ "\x27: " ++ pyRepr v
  | (k, v) :: p :: kvs => "\x27" ++ k ++ "\x27: " ++ pyRepr v ++ ", " ++ pyReprPairs (p :: kvs)

end

/-- Python `str` of a value: the string itself for strings, `repr`-style
rendering otherwise (f-string interpolation semantics). -/
def pyStr : JVal → String
  | .str s => s
  | .null => "None"
  | .bool b => pyRepr (.bool b)
  | .num n => toString n
  | .arr xs => pyRepr (.arr xs)
  | .obj kvs => pyRepr (.obj kvs)

/-- Python `value.get(key, default)`: raises `AttributeError` unless the
value is a dict, and returns the default when the key is absent. -/
def pyDictGet (v : JVal) (k : String) (default : JVal) : Except PyExc JVal :=
  match v with
  | .obj kvs => .ok ((dictGet kvs k).getD default)
  | _ => .error .attributeError

/-- Python `value.get(key)` with no default: as `pyDictGet` but an absent
key yields `None`. -/
def pyDictGetNone (v : JVal) (k : String) : Except PyExc JVal :=
  match v with
  | .obj kvs => .ok ((dictGet kvs k).getD .null)
  | _ => .error .attributeError

/-- `WIDTH_JUSTIFICATION_SEPARATOR` from the source. -/
def WIDTH_JUSTIFICATION_SEPARATOR : String := "."

/-- `TitleAndValue` frozen dataclass from the source. -/
structure TitleAndValue where
  title : String
  value : String
deriving DecidableEq

/-- Python string repetition `s * n`: `n` copies for positive `n`, the empty
string for zero or negative `n`. -/
def pyStrMul (s : String) (n : Int) : String :=
  String.join (List.replicate n.toNat s)

/-- `get_adjusted_line` from the source: dot-justifies `stat.title` against
`stat.value` to the target width, with the Python length (code points) of
title and value and a spacing that may be negative. -/
def get_adjusted_line (stat : TitleAndValue) (max_line_length : Int) : String :=
  let spacing : Int := max_line_length - ((stat.title.length : Int) + (stat.value.length : Int) + 2)
  let separator := " " ++ pyStrMul WIDTH_JUSTIFICATION_SEPARATOR spacing ++ " "
  stat.title ++ separator ++ stat.value

/-- The field selected inside `get_rating_line`: `"highest"` for the
`"Tactics"` format, `"last"` otherwise. -/
def selectField (chess_format : String) : String :=
  if chess_format = "Tactics" then "highest" else "last"

/-- The body of the `try` block of `get_rating_line`: the chained `.get`
lookups and the truthiness-guarded rendering of the rating. -/
def get_rating_line_try (stats_key chess_format : String) (chess_stats : JVal) :
    Except PyExc String :=
  match pyDictGet chess_stats stats_key (.obj []) with
  | .error e => .error e
  | .ok data =>
    match pyDictGet data (selectField chess_format) (.obj []) with
    | .error e => .error e
    | .ok mid =>
      match pyDictGetNone mid "rating" with
      | .error e => .error e
      | .ok rating => .ok (if pyTruthy rating then pyStr rating ++ " 📈" else "N/A")

/-- `get_rating_line` from the source: runs the `try` body, catches
`AttributeError` and `TypeError` into the `"N/A"` sentinel, and pairs the
result with the `"emoji label"` title. Any other exception would
propagate. -/
def get_rating_line (stats_key chess_emoji chess_format : String) (chess_stats : JVal) :
    Except PyExc TitleAndValue :=
  match get_rating_line_try stats_key chess_format chess_stats with
  | .ok s => .ok ⟨chess_emoji ++ " " ++ chess_format, s⟩
  | .error .attributeError => .ok ⟨chess_emoji ++ " " ++ chess_format, "N/A"⟩
  | .error .typeError => .ok ⟨chess_emoji ++ " " ++ chess_format, "N/A"⟩
  | .error e => .error e

/-- The lookup chain `payload[statsKey][field]["rating"]` of the spec, as an
optional value: `none` when any step is missing or not a mapping. -/
def ratingPathLookup (chess_stats : JVal) (k field : String) : Option JVal :=
  match chess_stats with
  | .obj kvs =>
    match dictGet kvs k with
    | some (.obj kvs1) =>
      match dictGet kvs1 field with
      | some (.obj kvs2) => dictGet kvs2 "rating"
      | _ => none
    | _ => none
  | _ => none

/-- Rendering of an optional rating value: truthy values render as
`"{rating} 📈"`, everything else as `"N/A"`. -/
def renderRating : Option JVal → String
  | some v => if pyTruthy v then pyStr v ++ " 📈" else "N/A"
  | none => "N/A"

/-- The extraction result characterised through the spec-side lookup chain:
the title is always `"{emoji} {label}"` and the value is the rendering of
the value found at the selected path. -/
def get_rating_line_spec (stats_key chess_emoji chess_format : String) (chess_stats : JVal) :
    TitleAndValue :=
  ⟨chess_emoji ++ " " ++ chess_format,
   renderRating (ratingPathLookup chess_stats stats_key (selectField chess_format))⟩

/-- The rating is missing at some step of the lookup chain: a lookup step
fails (absent key or non-mapping value) or the rating itself is `None`. -/
def ratingMissing (chess_stats : JVal) (stats_key chess_format : String) : Prop :=
  ratingPathLookup chess_stats stats_key (selectField chess_format) = none ∨
  ratingPathLookup chess_stats stats_key (selectField chess_format) = some .null

/-- Outcome of the single HTTP GET performed by `get_chess_com_stats`:
either the transport raised, or a response arrived with a status code and
a body that parses to a JSON value (`none` when the body does not parse). -/
inductive FetchOutcome where
  | transportError
  | response (status : Nat) (body : Option JVal)

/-- `get_chess_com_stats` from the source, as a function of the HTTP
outcome: `raise_for_status` raises `RequestException` on 4xx/5xx, a parse
failure of the body raises the requests JSON decode error (a subclass of
`RequestException`), and the single `except` clause turns any
`RequestException` into the empty dict. -/
def get_chess_com_stats (r : FetchOutcome) : Except PyExc JVal :=
  let attempt : Except PyExc JVal :=
    match r with
    | .transportError => .error .requestException
    | .response status body =>
      if 400 ≤ status ∧ status < 600 then .error .requestException
      else
        match body with
        | none => .error .requestException
        | some v => .ok v
  match attempt with
  | .ok v => .ok v
  | .error .requestException => .ok (.obj [])
  | .error e => .error e

/-- A value is a Python mapping (a dict). -/
def isMapping : JVal → Bool
  | .obj _ => true
  | _ => false

/-- `ENV_VAR_GIST_ID` from the source. -/
def ENV_VAR_GIST_ID : String := "GIST_ID"

/-- `ENV_VAR_GITHUB_TOKEN` from the source. -/
def ENV_VAR_GITHUB_TOKEN : String := "GH_TOKEN"

/-- `ENV_VAR_CHESS_COM_USERNAME` from the source. -/
def ENV_VAR_CHESS_COM_USERNAME : String := "CHESS_COM_USERNAME"

/-- `REQUIRED_ENVS` from the source. -/
def REQUIRED_ENVS : List String :=
  [ENV_VAR_GIST_ID, ENV_VAR_GITHUB_TOKEN, ENV_VAR_CHESS_COM_USERNAME]

/-- The process environment, as an association list; the most recent
assignment is listed first. -/
abbrev Env : Type := List (String × String)

/-- `os.environ.get`: the most recent binding of the name, if any. -/
def envGet (env : Env) (k : String) : Option String :=
  match env with
  | [] => none
  | (k2, v) :: rest => if k2 = k then some v else envGet rest k

/-- `os.environ[k] = v`: a new binding shadowing any previous one. -/
def envSet (env : Env) (k v : String) : Env :=
  (k, v) :: env

/-- Truthiness of `os.environ.get(k)`: false when the variable is absent or
bound to the empty string. -/
def envTruthy (env : Env) (k : String) : Bool :=
  match envGet env k with
  | none => false
  | some s => !s.isEmpty

/-- The `env_vars_absent` list computed by `validate_and_init`: the required
names whose value is absent or falsy. -/
def env_vars_absent (env : Env) : List String :=
  REQUIRED_ENVS.filter (fun e => !envTruthy env e)

/-- `validate_and_init` from the source: true exactly when no required
environment variable is missing. -/
def validate_and_init (env : Env) : Bool :=
  (env_vars_absent env).isEmpty

/-- `GIST_TITLE` from the source. -/
def GIST_TITLE : String := "♟︎ Chess.com Ratings"

/-- The `configs` list of `main`: `(statsKey, emoji, label, targetWidth)`
for the five formats, in source order. -/
def configs : List (String × String × String × Int) :=
  [("chess_blitz", "⚡", "Blitz", 52),
   ("chess_bullet", "🚅", "Bullet", 52),
   ("chess_rapid", "⏲️", "Rapid", 53),
   ("tactics", "🧩", "Tactics", 52),
   ("chess_daily", "☀️", "Daily", 53)]

/-- The line-building loop of `main`: one `get_rating_line` plus
`get_adjusted_line` per configuration, in order, propagating any uncaught
exception. -/
def buildLines (cfgs : List (String × String × String × Int)) (stats : JVal) :
    Except PyExc (List String) :=
  match cfgs with
  | [] => .ok []
  | (k, e, f, w) :: rest =>
    match get_rating_line k e f stats with
    | .error err => .error err
    | .ok tv =>
      match buildLines rest stats with
      | .error err => .error err
      | .ok ls => .ok (get_adjusted_line tv w :: ls)

/-- The five output lines of `main` for a given stats payload. -/
def formatLines (stats : JVal) : Except PyExc (List String) :=
  buildLines configs stats

/-- Observable network effects of one run. -/
inductive Event where
  | fetchCall (user : String)
  | gistCall (gistId : String) (content : String)

/-- `main` from the source, as a function of the environment and of the
outcome of the stats fetch: validation failure exits with status 1 before
any network call; otherwise the fetch runs, the five lines are built and
joined, and the gist update is attempted exactly once. The result is the
exit status together with the network calls made. -/
def mainRun (env : Env) (fetch : FetchOutcome) : Except PyExc (Nat × List Event) :=
  if validate_and_init env then
    let username := (envGet env ENV_VAR_CHESS_COM_USERNAME).getD ""
    match get_chess_com_stats fetch with
    | .error e => .error e
    | .ok stats =>
      match formatLines stats with
      | .error e => .error e
      | .ok lines =>
        .ok (0, [Event.fetchCall username,
                 Event.gistCall ((envGet env ENV_VAR_GIST_ID).getD "")
                   (String.intercalate "\n" lines)])
  else .ok (1, [])

/-- The `__main__` CLI handling from the source: when `sys.argv` has exactly
five tokens (the program name plus four arguments), tokens at indices 2, 3
and 4 are written into the three environment variables; any other length
leaves the environment unchanged. -/
def applyCliArgs (argv : List String) (env : Env) : Env :=
  if argv.length = 5 then
    envSet
      (envSet (envSet env ENV_VAR_GIST_ID (argv.getD 2 ""))
        ENV_VAR_GITHUB_TOKEN (argv.getD 3 ""))
      ENV_VAR_CHESS_COM_USERNAME (argv.getD 4 "")
  else env

/-! ## Characterisation of `get_rating_line` -/

/-- `get_rating_line` never propagates an exception and its behaviour is
captured by the spec-side path lookup and rendering. -/
theorem get_rating_line_ok (k e f : String) (s : JVal) :
    get_rating_line k e f s = .ok (get_rating_line_spec k e f s) := by
  cases s with
  | obj kvs =>
    cases h : dictGet kvs k with
    | none =>
      simp [get_rating_line, get_rating_line_try, get_rating_line_spec, ratingPathLookup,
        renderRating, pyDictGet, pyDictGetNone, h, dictGet, pyTruthy]
    | some v =>
      cases v with
      | obj kvs1 =>
        cases h1 : dictGet kvs1 (selectField f) with
        | none =>
          simp [get_rating_line, get_rating_line_try, get_rating_line_spec, ratingPathLookup,
            renderRating, pyDictGet, pyDictGetNone, h, h1, dictGet, pyTruthy]
        | some w =>
          cases w with
          | obj kvs2 =>
            cases h2 : dictGet kvs2 "rating" with
            | none =>
              simp [get_rating_line, get_rating_line_try, get_rating_line_spec, ratingPathLookup,
                renderRating, pyDictGet, pyDictGetNone, h, h1, h2, pyTruthy]
            | some u =>
              simp [get_rating_line, get_rating_line_try, get_rating_line_spec, ratingPathLookup,
                renderRating, pyDictGet, pyDictGetNone, h, h1, h2]
          | null =>
            simp [get_rating_line, get_rating_line_try, get_rating_line_spec, ratingPathLookup,
              renderRating, pyDictGet, pyDictGetNone, h, h1]
          | bool b =>
            simp [get_rating_line, get_rating_line_try, get_rating_line_spec, ratingPathLookup,
              renderRating, pyDictGet, pyDictGetNone, h, h1]
          | num n =>
            simp [get_rating_line, get_rating_line_try, get_rating_line_spec, ratingPathLookup,
              renderRating, pyDictGet, pyDictGetNone, h, h1]
          | str s2 =>
            simp [get_rating_line, get_rating_line_try, get_rating_line_spec, ratingPathLookup,
              renderRating, pyDictGet, pyDictGetNone, h, h1]
          | arr xs =>
            simp [get_rating_line, get_rating_line_try, get_rating_line_spec, ratingPathLookup,
              renderRating, pyDictGet, pyDictGetNone, h, h1]
      | null =>
        simp [get_rating_line, get_rating_line_try, get_rating_line_spec, ratingPathLookup,
          renderRating, pyDictGet, pyDictGetNone, h]
      | bool b =>
        simp [get_rating_line, get_rating_line_try, get_rating_line_spec, ratingPathLookup,
          renderRating, pyDictGet, pyDictGetNone, h]
      | num n =>
        simp [get_rating_line, get_rating_line_try, get_rating_line_spec, ratingPathLookup,
          renderRating, pyDictGet, pyDictGetNone, h]
      | str s2 =>
        simp [get_rating_line, get_rating_line_try, get_rating_line_spec, ratingPathLookup,
          renderRating, pyDictGet, pyDictGetNone, h]
      | arr xs =>
        simp [get_rating_line, get_rating_line_try, get_rating_line_spec, ratingPathLookup,
          renderRating, pyDictGet, pyDictGetNone, h]
  | null =>
    simp [get_rating_line, get_rating_line_try, get_rating_line_spec, ratingPathLookup,
      renderRating, pyDictGet, pyDictGetNone]
  | bool b =>
    simp [get_rating_line, get_rating_line_try, get_rating_line_spec, ratingPathLookup,
      renderRating, pyDictGet, pyDictGetNone]
  | num n =>
    simp [get_rating_line, get_rating_line_try, get_rating_line_spec, ratingPathLookup,
      renderRating, pyDictGet, pyDictGetNone]
  | str s2 =>
    simp [get_rating_line, get_rating_line_try, get_rating_line_spec, ratingPathLookup,
      renderRating, pyDictGet, pyDictGetNone]
  | arr xs =>
    simp [get_rating_line, get_rating_line_try, get_rating_line_spec, ratingPathLookup,
      renderRating, pyDictGet, pyDictGetNone]

/-! ## Claims about rating extraction -/

/-- C1: for every payload mapping, `get_rating_line` never raises, always
returns a `TitleAndValue` pair of strings, and whenever the rating is
missing at any step of the lookup chain the value is exactly `"N/A"`. -/
theorem c1_extract_total_and_missing_na (k e f : String) (kvs : List (String × JVal)) :
    (∃ tv : TitleAndValue, get_rating_line k e f (.obj kvs) = .ok tv) ∧
    (ratingMissing (.obj kvs) k f →
      get_rating_line k e f (.obj kvs) = .ok ⟨e ++ " " ++ f, "N/A"⟩) := by
  refine ⟨⟨_, get_rating_line_ok k e f (.obj kvs)⟩, ?_⟩
  intro h
  rw [get_rating_line_ok]
  rcases h with h | h <;>
    simp [get_rating_line_spec, h, renderRating, pyTruthy]

/-- Witness for C1: the empty payload yields the `"N/A"` sentinel. -/
theorem c1_witness :
    get_rating_line "chess_blitz" "⚡" "Blitz" (.obj []) = .ok ⟨"⚡ Blitz", "N/A"⟩ :=
  (c1_extract_total_and_missing_na "chess_blitz" "⚡" "Blitz" []).2 (Or.inl rfl)

/-- C3: `get_rating_line` reads the rating from
`payload[statsKey]["highest"]["rating"]` exactly when the format label is
`"Tactics"`, and from `payload[statsKey]["last"]["rating"]` otherwise. -/
theorem c3_field_selection (k e f : String) (s : JVal) :
    get_rating_line k e f s =
      .ok ⟨e ++ " " ++ f,
        renderRating (ratingPathLookup s k (if f = "Tactics" then "highest" else "last"))⟩ := by
  rw [get_rating_line_ok]; rfl

/-- Counterexample for C4: the rating number `0` is found at the selected
path, yet the value returned is `"N/A"` instead of `"0 📈"`. -/
theorem c4_counterexample :
    get_rating_line "tactics" "🧩" "Tactics"
        (.obj [("tactics", .obj [("highest", .obj [("rating", .num 0)])])]) =
      .ok ⟨"🧩 Tactics", "N/A"⟩ ∧ ("N/A" : String) ≠ "0 📈" :=
  ⟨rfl, by decide⟩

/-- C4 as amended: a nonzero rating number `r` found at the selected path is
rendered as `"{r} 📈"`. -/
theorem c4_nonzero_rating_rendered (k e f : String) (s : JVal) (r : Int) (hr : r ≠ 0)
    (h : ratingPathLookup s k (selectField f) = some (.num r)) :
    get_rating_line k e f s = .ok ⟨e ++ " " ++ f, toString r ++ " 📈"⟩ := by
  rw [get_rating_line_ok]
  simp [get_rating_line_spec, h, renderRating, pyTruthy, pyStr, bne_iff_ne, hr]

/-- Witness for the amended C4: a blitz rating of 1500 renders as
`"1500 📈"`. -/
theorem c4_witness :
    get_rating_line "chess_blitz" "⚡" "Blitz"
        (.obj [("chess_blitz", .obj [("last", .obj [("rating", .num 1500)])])]) =
      .ok ⟨"⚡ Blitz", "1500 📈"⟩ :=
  c4_nonzero_rating_rendered "chess_blitz" "⚡" "Blitz"
    (.obj [("chess_blitz", .obj [("last", .obj [("rating", .num 1500)])])]) 1500
    (by decide) rfl

/-- C10: a rating equal to the number `0` at the selected path yields the
value `"N/A"`, because presence is tested by truthiness. -/
theorem c10_zero_rating_is_na (k e f : String) (s : JVal)
    (h : ratingPathLookup s k (selectField f) = some (.num 0)) :
    get_rating_line k e f s = .ok ⟨e ++ " " ++ f, "N/A"⟩ := by
  rw [get_rating_line_ok]
  simp [get_rating_line_spec, h, renderRating, pyTruthy]

/-- Witness for C10: a daily rating of 0 yields `"N/A"`. -/
theorem c10_witness :
    get_rating_line "chess_daily" "☀️" "Daily"
        (.obj [("chess_daily", .obj [("last", .obj [("rating", .num 0)])])]) =
      .ok ⟨"☀️ Daily", "N/A"⟩ :=
  c10_zero_rating_is_na "chess_daily" "☀️" "Daily"
    (.obj [("chess_daily", .obj [("last", .obj [("rating", .num 0)])])]) rfl

/-! ## Claims about the formatter -/

/-- Length of a left fold of string concatenation. -/
theorem foldl_append_length (l : List String) (acc : String) :
    (l.foldl (· ++ ·) acc).length = acc.length + (l.map String.length).sum := by
  induction l generalizing acc with
  | nil => simp
  | cons x xs ih => simp [ih, String.length_append]; omega

/-- Length of Python string repetition: `n.toNat` copies of the string. -/
theorem pyStrMul_length (s : String) (n : Int) :
    (pyStrMul s n).length = n.toNat * s.length := by
  unfold pyStrMul String.join
  rw [foldl_append_length]
  simp [List.map_replicate, Nat.mul_comm]

/-- C2: when the target width is at least `len(title) + len(value) + 3`,
the formatted line has exactly the target width. -/
theorem c2_adjusted_line_length (t v : String) (w : Int)
    (h : (t.length : Int) + v.length + 3 ≤ w) :
    ((get_adjusted_line ⟨t, v⟩ w).length : Int) = w := by
  have h1 : (" " : String).length = 1 := rfl
  have h2 : WIDTH_JUSTIFICATION_SEPARATOR.length = 1 := rfl
  unfold get_adjusted_line
  simp only [String.length_append, pyStrMul_length, h1, h2, Nat.mul_one]
  push_cast
  omega

/-- Witness for C2: the all-sentinel blitz line has width 52. -/
theorem c2_witness : ((get_adjusted_line ⟨"⚡ Blitz", "N/A"⟩ 52).length : Int) = 52 :=
  c2_adjusted_line_length "⚡ Blitz" "N/A" 52 (by decide)

/-- C9, evaluated at a failing input: with title `"a"`, value `"b"` and
target width 0 the separator run is clamped to zero and nothing is raised,
but the resulting line `"a  b"` has length 4, which exceeds the intended
target width 0. -/
theorem c9_eval_small_width :
    get_adjusted_line ⟨"a", "b"⟩ 0 = "a  b" ∧
      ((get_adjusted_line ⟨"a", "b"⟩ 0).length : Int) > 0 :=
  ⟨rfl, by decide⟩

/-! ## Claims about the orchestrator, the fetcher and the CLI -/

/-- The line-building loop never propagates an exception and produces the
map of the spec-side extraction and formatting over the configurations. -/
theorem buildLines_ok (cfgs : List (String × String × String × Int)) (stats : JVal) :
    buildLines cfgs stats =
      .ok (cfgs.map fun c =>
        get_adjusted_line (get_rating_line_spec c.1 c.2.1 c.2.2.1 stats) c.2.2.2) := by
  induction cfgs with
  | nil => rfl
  | cons c rest ih =>
    obtain ⟨k, e, f, w⟩ := c
    simp [buildLines, get_rating_line_ok, ih]

/-- C5: for every payload the orchestrator produces exactly the five lines
of the fixed configuration order (whose labels are Blitz, Bullet, Rapid,
Tactics, Daily); for the empty payload each of the five lines ends in
`"N/A"` and has its configured width. -/
theorem c5_five_lines_fixed_order :
    (∀ stats : JVal, formatLines stats =
      .ok (configs.map fun c =>
        get_adjusted_line (get_rating_line_spec c.1 c.2.1 c.2.2.1 stats) c.2.2.2)) ∧
    (configs.map fun c => c.2.2.1) = ["Blitz", "Bullet", "Rapid", "Tactics", "Daily"] ∧
    (∃ ls : List String, formatLines (.obj []) = .ok ls ∧ ls.length = 5 ∧
      ls.map String.length = [52, 52, 53, 52, 53] ∧
      (ls.all fun l => "N/A".data.isSuffixOf l.data) = true) := by
  refine ⟨fun stats => buildLines_ok configs stats, by decide, ?_⟩
  exact ⟨_, buildLines_ok configs (.obj []), by decide, by decide, by decide⟩

/-- C6: when any required environment variable is absent (or empty), the
run exits with status 1 and performs no network call. -/
theorem c6_missing_env_exits_early (env : Env) (fetch : FetchOutcome) (name : String)
    (hmem : name ∈ REQUIRED_ENVS) (habs : envTruthy env name = false) :
    mainRun env fetch = .ok (1, []) := by
  have hmem2 : name ∈ env_vars_absent env := by
    unfold env_vars_absent
    exact List.mem_filter.2 ⟨hmem, by simp [habs]⟩
  have hne : env_vars_absent env ≠ [] := List.ne_nil_of_mem hmem2
  have hval : validate_and_init env = false := by
    unfold validate_and_init
    cases h : env_vars_absent env with
    | nil => exact absurd h hne
    | cons a l => rfl
  unfold mainRun
  rw [hval]
  simp

/-- Witness for C6: the empty environment exits with status 1 and makes no
network call. -/
theorem c6_witness : mainRun [] .transportError = .ok (1, []) :=
  c6_missing_env_exits_early [] .transportError "GIST_ID" (by decide) rfl

/-- Counterexample for C7: a successful response whose body is the JSON
value `null` is returned as-is, so the fetch result is not a mapping. -/
theorem c7_counterexample :
    get_chess_com_stats (.response 200 (some .null)) = .ok .null ∧
      isMapping .null = false :=
  ⟨rfl, rfl⟩

/-- C7 as amended: the fetch never raises; transport errors, 4xx/5xx
statuses and unparseable bodies all yield the empty mapping, and a
successful response yields the parsed body as-is (whatever JSON value it
is). -/
theorem c7_fetch_resilient :
    (∀ r : FetchOutcome, ∃ v : JVal, get_chess_com_stats r = .ok v) ∧
    get_chess_com_stats .transportError = .ok (.obj []) ∧
    (∀ (s : Nat) (b : Option JVal), 400 ≤ s → s < 600 →
      get_chess_com_stats (.response s b) = .ok (.obj [])) ∧
    (∀ s : Nat, ¬(400 ≤ s ∧ s < 600) →
      get_chess_com_stats (.response s none) = .ok (.obj [])) ∧
    (∀ (s : Nat) (v : JVal), ¬(400 ≤ s ∧ s < 600) →
      get_chess_com_stats (.response s (some v)) = .ok v) := by
  refine ⟨?_, rfl, ?_, ?_, ?_⟩
  · intro r
    cases r with
    | transportError => exact ⟨_, rfl⟩
    | response s b =>
      unfold get_chess_com_stats
      by_cases h : 400 ≤ s ∧ s < 600
      · simp [h]
      · cases b <;> simp [h]
  · intro s b h1 h2
    unfold get_chess_com_stats
    simp [h1, h2]
  · intro s h
    unfold get_chess_com_stats
    simp [h]
  · intro s v h
    unfold get_chess_com_stats
    simp [h]

/-- Witness for the amended C7: a 503 response yields the empty mapping. -/
theorem c7_witness : get_chess_com_stats (.response 503 (some (.num 7))) = .ok (.obj []) :=
  c7_fetch_resilient.2.2.1 503 (some (.num 7)) (by decide) (by decide)

/-- Counterexample for C8: with exactly four command-line tokens (program
name plus three arguments) the environment is left untouched, so no
override takes place. -/
theorem c8_counterexample :
    applyCliArgs ["chess_com_box.py", "gist", "tok", "user"] [] = [] ∧
      envGet (applyCliArgs ["chess_com_box.py", "gist", "tok", "user"] []) ENV_VAR_GIST_ID =
        none :=
  ⟨rfl, rfl⟩

/-- C8 as amended: with exactly five command-line tokens the second token
is ignored and tokens 3, 4 and 5 override the gist id, the access token
and the username; any other token count leaves the environment as the
fallback. -/
theorem c8_cli_five_tokens :
    (∀ (a0 a1 g t u : String) (env : Env),
      envGet (applyCliArgs [a0, a1, g, t, u] env) ENV_VAR_GIST_ID = some g ∧
      envGet (applyCliArgs [a0, a1, g, t, u] env) ENV_VAR_GITHUB_TOKEN = some t ∧
      envGet (applyCliArgs [a0, a1, g, t, u] env) ENV_VAR_CHESS_COM_USERNAME = some u) ∧
    (∀ (argv : List String) (env : Env), argv.length ≠ 5 → applyCliArgs argv env = env) := by
  constructor
  · intro a0 a1 g t u env
    exact ⟨rfl, rfl, rfl⟩
  · intro argv env h
    unfold applyCliArgs
    simp [h]

/-- Witness for the amended C8: a single token leaves the environment
unchanged. -/
theorem c8_witness : applyCliArgs ["chess_com_box.py"] [] = [] :=
  c8_cli_five_tokens.2 ["chess_com_box.py"] [] (by decide)

end ChessComBox
